import Mathlib

/-!
Shallow embedding of the task-orchestration core of `src/server.js`
(claude-code-runner): the task registry (the `tasks` Map), the
`POST /task`, `GET /task/:id`, `GET /health` handlers, the `requireAuth`
middleware, and the two-phase sequencer `runTask` / `runOrchestrator` /
`runWorker`.

Conventions of the embedding:
* Timestamps are abstract `Nat` values supplied by the caller
  (`new Date().toISOString()` in the source).
* The random task identifier (`randomUUID().slice(0, 8)`) is an oracle
  input to `postTask`; the source performs no uniqueness check on it.
* The per-task log artifact is modelled as the ordered list of string
  chunks appended to it (`appendFile` banners and streamed pty output).
* Asynchronous interleaving is resolved into the event order the Node
  event loop produces: when a promise rejection and a pty `onExit`
  callback of a process killed by the timeout handler are both pending,
  the `.catch` of the rejection (a microtask) runs before the `onExit`
  (a later macrotask, fired when the killed process actually dies).
-/

namespace ClaudeRunner

/-- Task `status` values stored in the registry or sent in responses.
The source stores `running | completed | failed` and answers task
creation with the string `queued`. -/
inductive Status where
  | queued
  | running
  | completed
  | failed
deriving DecidableEq, Repr

/-- The per-task record kept in the `tasks` Map.  Fields that the source
adds only later (`pr_url`, `error`, `errorType`, `finished`) are `Option`s
defaulting to `none`; JS `null` and an absent key are both `none`. -/
structure TaskRecord where
  status : Status
  prompt : String
  started : Nat
  logFile : String
  pr_url : Option String := none
  error : Option String := none
  errorType : Option String := none
  finished : Option Nat := none
deriving DecidableEq, Repr

/-- The registry (`const tasks = new Map()`), as an association list whose
keys are kept unique by `setTask`. -/
def Registry := List (String × TaskRecord)

instance : DecidableEq Registry := by
  unfold Registry; infer_instance

instance : Repr Registry := by
  unfold Registry; infer_instance

/-- Map update `tasks.set(id, r)`: insert or overwrite the entry for `id`. -/
def setTask (reg : Registry) (id : String) (r : TaskRecord) : Registry :=
  (id, r) :: (List.filter (fun p => p.1 ≠ id) reg)

/-- Map read `tasks.get(id)`. -/
def getTask (reg : Registry) (id : String) : Option TaskRecord :=
  (List.find? (fun p => p.1 = id) reg).map (·.2)

/-- Registry size `tasks.size`. -/
def registrySize (reg : Registry) : Nat := List.length reg

/-- Count of records whose status is `running`, as computed by the health
handler: `[...tasks.values()].filter(t => t.status === running).length`. -/
def countRunning (reg : Registry) : Nat :=
  List.length (List.filter (fun p => p.2.status = Status.running) reg)

/-!
## PR-URL extraction

The worker `onExit` handler runs
`output.match(/https:\/\/github\.com\/[^\s]+\/pull\/\d+/)`.
JS `String.prototype.match` with a non-global regex returns the leftmost
match; the quantifiers `[^\s]+` and `\d+` are greedy with backtracking.
We model `\s` by the ASCII whitespace characters (space, tab, LF, VT, FF,
CR); the inputs of interest contain no Unicode spaces.
-/

/-- ASCII portion of the JS `\s` character class. -/
def jsSpace (c : Char) : Bool :=
  c = ' ' || c = '\t' || c = '\n' || c = '\x0b' || c = '\x0c' || c = '\r'

/-- Decides whether the first list is an initial segment of the second
(the literal-matching step of the regex engine). -/
def leadsWith : List Char → List Char → Bool
  | [], _ => true
  | _ :: _, [] => false
  | a :: pre, b :: l => a = b && leadsWith pre l

/-- The literal head of the pattern, `https://github.com/`. -/
def prHead : List Char := String.data "https://github.com/"

/-- The literal middle of the pattern, `/pull/`. -/
def prPull : List Char := String.data "/pull/"

/-- Completion of the pattern right after the literal head: pick the
longest non-empty all-non-space segment `rest.take j` after which the
literal `/pull/` and at least one digit follow (greedy backtracking of
`[^\s]+`), then take the maximal digit run (greedy `\d+`). -/
def matchTail (rest : List Char) : Option (List Char) :=
  let runLen := List.length (List.takeWhile (fun c => ¬ jsSpace c) rest)
  List.findSome? (fun j =>
      if j = 0 then none
      else if leadsWith prPull (List.drop j rest) then
        let ds := List.takeWhile Char.isDigit (List.drop (j + 6) rest)
        if ds = [] then none
        else some (prHead ++ List.take j rest ++ prPull ++ ds)
      else none)
    (List.reverse (List.range (runLen + 1)))

/-- Leftmost-match scan: try each start position in order; at a position
where the literal head matches but the tail cannot be completed, keep
scanning further right. -/
def matchPRchars : List Char → Option (List Char)
  | [] => none
  | c :: tl =>
    if leadsWith prHead (c :: tl) then
      match matchTail (List.drop (List.length prHead) (c :: tl)) with
      | some m => some m
      | none => matchPRchars tl
    else matchPRchars tl

/-- First match of the PR-URL regex over the accumulated output, the value
the source stores as `pr_url` (`null`, here `none`, when there is none). -/
def matchPRUrl (s : String) : Option String :=
  Option.map (fun l => String.mk l) (matchPRchars (String.data s))

/-!
## Spec-side output-classifier vocabulary

The specification describes an output classifier with capacity-throttling
signature tokens.  No such classifier exists in `src/server.js`; the
definitions below follow the words of the spec and are used only to state
the corresponding claims against the code.
-/

/-- Decides whether the first list occurs as a contiguous segment of the
second. -/
def occursIn : List Char → List Char → Bool
  | needle, [] => leadsWith needle []
  | needle, c :: tl => leadsWith needle (c :: tl) || occursIn needle tl

/-- Case-insensitive substring test: used to state the spec-side signature
conditions over process output. -/
def containsCI (hay needle : String) : Bool :=
  occursIn (List.map Char.toLower (String.data needle))
    (List.map Char.toLower (String.data hay))

/-- Modelled from the spec: the capacity-throttling signature tokens of
the output classifier (case-insensitive), quoted from the claim. -/
def capacityTokens : List String :=
  ["rate limit", "too many requests", "throttle", "quota", "overloaded"]

/-- Modelled from the spec: accumulated output carries a
capacity-throttling signature when some token occurs in it,
case-insensitively. -/
def hasCapacitySignature (out : String) : Bool :=
  List.any capacityTokens (fun t => containsCI out t)

/-! ## JSON responses -/

/-- A JSON value, only the shapes the handlers produce. -/
inductive JVal where
  | jbool (b : Bool)
  | jnum (n : Nat)
  | jstr (s : String)
  | jnull
deriving DecidableEq, Repr

/-- An HTTP response from one of the modelled handlers: a JSON body with a
status code, or a redirect (issued by `requireAuth` only). -/
inductive Response where
  | json (code : Nat) (body : List (String × JVal))
  | redirect (location : String)
deriving DecidableEq, Repr

/-! ## The `requireAuth` middleware (src/server.js lines 57 to 83) -/

/-- The decision `requireAuth` takes for a request: call `next()`,
redirect, or answer `401` with body `error: Unauthorized`. -/
inductive AuthDecision where
  | next
  | redirect (location : String)
  | unauthorized
deriving DecidableEq, Repr

/-- Model of the JS test `path.startsWith(pre)`: character-level prefix. -/
def pathStartsWith (path pre : String) : Bool :=
  leadsWith (String.data pre) (String.data path)

/-- The middleware `requireAuth(req, res, next)` as a function of the
facts it branches on: whether the admin account is set up
(`isSetupComplete()`), the request path, and whether the session is
authenticated. -/
def requireAuth (setupComplete : Bool) (path : String) (sessionAuth : Bool) :
    AuthDecision :=
  if ¬ setupComplete then
    if path = "/setup" ∨ path = "/api/setup" then AuthDecision.next
    else AuthDecision.redirect "/setup"
  else if path = "/login" ∨ path = "/api/login" then AuthDecision.next
  else if sessionAuth then AuthDecision.next
  else if pathStartsWith path "/api/" ∨ pathStartsWith path "/task" then
    AuthDecision.unauthorized
  else AuthDecision.redirect "/login"

/-- Composition of `app.use(requireAuth)` with a route handler: the
handler (a state transformer on the registry) runs only when the
middleware calls `next()`; otherwise the registry is untouched and the
response of the middleware itself is sent. -/
def handleWithAuth (setupComplete sessionAuth : Bool) (path : String)
    (reg : Registry) (route : Registry → Registry × Response) :
    Registry × Response :=
  match requireAuth setupComplete path sessionAuth with
  | AuthDecision.next => route reg
  | AuthDecision.redirect l => (reg, Response.redirect l)
  | AuthDecision.unauthorized =>
      (reg, Response.json 401 [("error", JVal.jstr "Unauthorized")])

/-! ## Route handlers -/

/-- Constant `WORK_DIR` of the source. -/
def WORK_DIR : String := "/tmp/work"

/-- The synchronous part of the `POST /task` handler: reject a missing (or
empty, which is falsy in JS) prompt with 400; otherwise store the fresh
record, whose status is `running`, and answer `id` with status string
`queued`.  Here `freshId` stands for `randomUUID().slice(0, 8)` and `now`
for the creation timestamp. -/
def postTask (reg : Registry) (freshId : String) (now : Nat)
    (prompt : Option String) : Registry × Response :=
  match prompt with
  | none => (reg, Response.json 400 [("error", JVal.jstr "prompt required")])
  | some p =>
    if p = "" then
      (reg, Response.json 400 [("error", JVal.jstr "prompt required")])
    else
      let r : TaskRecord :=
        { status := Status.running
          prompt := p
          started := now
          logFile := WORK_DIR ++ "/" ++ freshId ++ "/output.log" }
      (setTask reg freshId r,
       Response.json 200
         [("id", JVal.jstr freshId), ("status", JVal.jstr "queued")])

/-- Result shape of `GET /task/:id`. -/
inductive TaskGetResult where
  | notFound
  | found (id : String) (r : TaskRecord)
deriving DecidableEq, Repr

/-- Handler of `GET /task/:id`: 404 for an unknown id, else the snapshot
spreading `id` and the record. -/
def getTaskRoute (reg : Registry) (id : String) : TaskGetResult :=
  match getTask reg id with
  | none => TaskGetResult.notFound
  | some r => TaskGetResult.found id r

/-- Handler of `GET /health`, as the ordered list of JSON fields it
serializes: `ok: true`, `tasks: tasks.size`, `running:` the count of
records with status `running`. -/
def healthJson (reg : Registry) : List (String × JVal) :=
  [("ok", JVal.jbool true),
   ("tasks", JVal.jnum (registrySize reg)),
   ("running", JVal.jnum (countRunning reg))]

/-!
## The two-phase sequencer (`runTask`, `runOrchestrator`, `runWorker`)

Each phase is reduced to the observable outcome of its pty process, in the
order the event loop delivers it:
* the spawn call throws synchronously (binary missing) — the promise
  rejects before the `setTimeout` line ever runs;
* the phase timer fires before the process exits — the timeout handler
  kills the process and rejects with `errorType` timeout; for the worker
  the killed process afterwards still triggers `onExit`;
* the process exits on its own before the timer.
-/

/-- Outcome of the orchestrator phase.  Here `chunks` are the pty output
pieces streamed to the log before the phase ended. -/
inductive OrchEvent where
  | spawnFail (msg : String)
  | timeout (chunks : List String)
  | exit (chunks : List String) (code : Int)
deriving DecidableEq, Repr

/-- Outcome of the worker phase.  In `timeoutThenExit` the timer fired
first (rejecting the promise) and the killed process then exited with the
reported `code`, still running the `onExit` handler. -/
inductive WorkEvent where
  | spawnFail (msg : String)
  | timeoutThenExit (chunks : List String) (code : Int)
  | exit (chunks : List String) (code : Int)
deriving DecidableEq, Repr

/-- The catch attached to `runTask(...)` in the `POST /task` handler: it
spreads the current record and sets status `failed`, `error` to the
message of the rejected error, `errorType` to the `errorType` property of
that error — `unknown` when the property is absent (`etype = none`) — and
`finished`. -/
def failUpdate (r : TaskRecord) (msg : String) (etype : Option String)
    (now : Nat) : TaskRecord :=
  { r with
    status := Status.failed
    error := some msg
    errorType := some (Option.getD etype "unknown")
    finished := some now }

/-- Lifting of `failUpdate` to the registry, spreading the current record
as the source does.  The entry is always present here, having been set
before `runTask` started; the `none` arm is unreachable and only keeps the
function total. -/
def catchUpdate (reg : Registry) (id : String) (msg : String)
    (etype : Option String) (now : Nat) : Registry :=
  match getTask reg id with
  | some r => setTask reg id (failUpdate r msg etype now)
  | none =>
      setTask reg id
        (failUpdate { status := Status.failed, prompt := "", started := 0,
                      logFile := "" } msg etype now)

/-- Body of the worker `onExit` handler: status from the exit code alone,
`pr_url` from the first PR-URL regex match over the accumulated output,
`errorType` set to `exit_code` exactly on a non-zero exit. -/
def workerFinish (r : TaskRecord) (output : String) (code : Int)
    (now : Nat) : TaskRecord :=
  { r with
    status := if code = 0 then Status.completed else Status.failed
    pr_url := matchPRUrl output
    errorType := if code = 0 then none else some "exit_code"
    finished := some now }

/-- Lifting of `workerFinish` to the registry (the handler spreads
`tasks.get(id)`); the `none` arm is again unreachable totalization. -/
def workerFinishReg (reg : Registry) (id : String) (output : String)
    (code : Int) (now : Nat) : Registry :=
  match getTask reg id with
  | some r => setTask reg id (workerFinish r output code now)
  | none =>
      setTask reg id
        (workerFinish { status := Status.failed, prompt := "", started := 0,
                        logFile := "" } output code now)

/-- Banners `runTask` appends to the log before the orchestrator phase. -/
def taskStartBanners (id prompt : String) (started : Nat) : List String :=
  ["=== Task started: " ++ toString started ++ " ===\n",
   "ID: " ++ id ++ "\n",
   "Prompt: " ++ prompt ++ "\n\n"]

/-- Banner opening the orchestrator phase in the log. -/
def orchBanner : String := "\n=== ORCHESTRATOR PHASE ===\n"

/-- Banner closing the orchestrator phase in the log. -/
def orchDoneBanner : String := "\n=== ORCHESTRATOR COMPLETE ===\n\n"

/-- Banner opening the worker (execution) phase in the log. -/
def workerBanner : String := "=== WORKER PHASE ===\n"

/-- Banner closing the worker phase in the log. -/
def workerDoneBanner : String := "\n=== WORKER COMPLETE ===\n"

/-- Everything observable about one asynchronous task run: the final
registry, the chunks appended to the log artifact of the task in order,
whether the worker process was ever spawned, and whether the `setTimeout`
timer of each phase was ever created. -/
structure RunOutcome where
  reg : Registry
  log : List String
  workerLaunched : Bool
  orchTimerStarted : Bool
  workerTimerStarted : Bool
deriving DecidableEq, Repr

/-- Model of `runTask(id, prompt, taskDir)` together with the catch in the
`POST /task` handler, evaluated over the phase outcomes.  Here `reg` is
the registry right after the creation `tasks.set` and `finish` abstracts
the timestamps taken when the run settles. -/
def runTaskModel (reg : Registry) (id prompt : String) (started finish : Nat)
    (oe : OrchEvent) (we : WorkEvent) : RunOutcome :=
  let log0 := taskStartBanners id prompt started ++ [orchBanner]
  match oe with
  | OrchEvent.spawnFail msg =>
      -- pty.spawn throws before the setTimeout line: no timer, the
      -- rejection reaches the catch, nothing more is written to the log.
      { reg := catchUpdate reg id msg none finish
        log := log0
        workerLaunched := false
        orchTimerStarted := false
        workerTimerStarted := false }
  | OrchEvent.timeout chunks =>
      -- timer fired: proc.kill(), reject with errorType timeout; the
      -- orchestrator onExit callback never touches the registry.
      { reg := catchUpdate reg id "Orchestrator timed out" (some "timeout")
          finish
        log := log0 ++ chunks
        workerLaunched := false
        orchTimerStarted := true
        workerTimerStarted := false }
  | OrchEvent.exit chunks code =>
      if code = 0 then
        let log1 := log0 ++ chunks ++ [orchDoneBanner, workerBanner]
        match we with
        | WorkEvent.spawnFail msg =>
            { reg := catchUpdate reg id msg none finish
              log := log1
              workerLaunched := true
              orchTimerStarted := true
              workerTimerStarted := false }
        | WorkEvent.timeoutThenExit wchunks wcode =>
            -- the timeout rejection settles the promise and the catch
            -- runs first; the onExit of the killed process then
            -- overwrites the record (its late reject is a no-op on a
            -- settled promise).
            let reg1 := catchUpdate reg id "Worker timed out after 1 hour"
              (some "timeout") finish
            { reg := workerFinishReg reg1 id (String.join wchunks) wcode
                finish
              log := log1 ++ wchunks
              workerLaunched := true
              orchTimerStarted := true
              workerTimerStarted := true }
        | WorkEvent.exit wchunks wcode =>
            let reg1 := workerFinishReg reg id (String.join wchunks) wcode
              finish
            if wcode = 0 then
              { reg := reg1
                log := log1 ++ wchunks ++ [workerDoneBanner]
                workerLaunched := true
                orchTimerStarted := true
                workerTimerStarted := true }
            else
              -- onExit sets the record, then rejects; the catch spreads
              -- that record and overwrites errorType with unknown.
              { reg := catchUpdate reg1 id
                  ("Worker exited with code " ++ toString wcode) none finish
                log := log1 ++ wchunks
                workerLaunched := true
                orchTimerStarted := true
                workerTimerStarted := true }
      else
        { reg := catchUpdate reg id
            ("Orchestrator exited with code " ++ toString code) none finish
          log := log0 ++ chunks
          workerLaunched := false
          orchTimerStarted := true
          workerTimerStarted := false }

/-! ## Registry lemmas -/

theorem getTask_setTask_same (reg : Registry) (id : String) (r : TaskRecord) :
    getTask (setTask reg id r) id = some r := by
  simp [getTask, setTask]

theorem find?_band_ne (l : List (String × TaskRecord)) (id id' : String)
    (h : id' ≠ id) :
    List.find? (fun a => !decide (a.1 = id) && decide (a.1 = id')) l
      = List.find? (fun p => decide (p.1 = id')) l := by
  induction l with
  | nil => rfl
  | cons hd tl ih =>
    by_cases h1 : hd.1 = id'
    · have h2 : ¬ (hd.1 = id) := by rw [h1]; exact h
      simp only [List.find?, h1, h2]
      simp [h]
    · simp [h1, ih]

theorem getTask_setTask_ne (reg : Registry) (id id' : String) (r : TaskRecord)
    (h : id' ≠ id) : getTask (setTask reg id r) id' = getTask reg id' := by
  have hh : ¬ (id = id') := fun he => h he.symm
  simp only [getTask, setTask]
  simp [hh, find?_band_ne reg id id' h]

theorem filter_ne_of_absent (reg : Registry) (id : String)
    (h : getTask reg id = none) :
    List.filter (fun p => p.1 ≠ id) reg = reg := by
  have hf : List.find? (fun p => p.1 = id) reg = none := by
    cases hfind : List.find? (fun p => p.1 = id) reg with
    | none => rfl
    | some v => rw [getTask, hfind] at h; simp at h
  have h2 := List.find?_eq_none.mp hf
  apply List.filter_eq_self.mpr
  intro a ha
  simpa using h2 a ha

/-! ## Banner disambiguation lemmas -/

theorem append3_ne (a b w x : String) (i : Nat)
    (h1 : i < (String.data a).length)
    (h2 : (String.data a)[i]? ≠ (String.data w)[i]?) :
    a ++ x ++ b ≠ w := by
  intro h
  apply h2
  have hd := congrArg String.data h
  rw [String.data_append, String.data_append] at hd
  have h3 : ((String.data a ++ String.data x) ++ String.data b)[i]?
      = (String.data a)[i]? := by
    rw [List.getElem?_append_left (by rw [List.length_append]; omega),
        List.getElem?_append_left h1]
  rw [← h3, hd]

theorem startBanner1_ne_workerBanner (n : Nat) :
    "=== Task started: " ++ toString n ++ " ===\n" ≠ workerBanner :=
  append3_ne "=== Task started: " " ===\n" workerBanner (toString n) 4
    (by decide) (by decide)

theorem startBanner2_ne_workerBanner (id : String) :
    "ID: " ++ id ++ "\n" ≠ workerBanner :=
  append3_ne "ID: " "\n" workerBanner id 0 (by decide) (by decide)

theorem startBanner3_ne_workerBanner (p : String) :
    "Prompt: " ++ p ++ "\n\n" ≠ workerBanner :=
  append3_ne "Prompt: " "\n\n" workerBanner p 0 (by decide) (by decide)

theorem workerBanner_not_mem_start (id prompt : String) (n : Nat) :
    workerBanner ∉ taskStartBanners id prompt n ++ [orchBanner] := by
  intro hmem
  simp only [taskStartBanners, List.cons_append, List.nil_append,
    List.mem_cons, List.not_mem_nil, or_false] at hmem
  rcases hmem with h | h | h | h
  · exact startBanner1_ne_workerBanner n h.symm
  · exact startBanner2_ne_workerBanner id h.symm
  · exact startBanner3_ne_workerBanner prompt h.symm
  · exact absurd h.symm (by decide)

/-! ## Claim C10 -/

/-- C10: when the asynchronous task sequence rejects, the failure update
spreads the current record, leaving `prompt`, `started`, `logFile` (and
`pr_url`) unchanged and setting only `status`, `error`, `errorType` and
`finished`; entries of other tasks are untouched. -/
theorem C10_failure_update_frame (reg : Registry) (id msg : String)
    (etype : Option String) (now : Nat) (r : TaskRecord)
    (h : getTask reg id = some r) :
    getTask (catchUpdate reg id msg etype now) id
      = some (failUpdate r msg etype now) ∧
    (failUpdate r msg etype now).prompt = r.prompt ∧
    (failUpdate r msg etype now).started = r.started ∧
    (failUpdate r msg etype now).logFile = r.logFile ∧
    (failUpdate r msg etype now).pr_url = r.pr_url ∧
    (failUpdate r msg etype now).status = Status.failed ∧
    (failUpdate r msg etype now).error = some msg ∧
    (failUpdate r msg etype now).errorType
      = some (Option.getD etype "unknown") ∧
    (failUpdate r msg etype now).finished = some now ∧
    (∀ id', id' ≠ id →
      getTask (catchUpdate reg id msg etype now) id' = getTask reg id') := by
  have hc : catchUpdate reg id msg etype now
      = setTask reg id (failUpdate r msg etype now) := by
    unfold catchUpdate; rw [h]
  refine ⟨?_, rfl, rfl, rfl, rfl, rfl, rfl, rfl, rfl, ?_⟩
  · rw [hc]; exact getTask_setTask_same reg id _
  · intro id' hne
    rw [hc]; exact getTask_setTask_ne reg id id' _ hne

/-- C10 witness: the frame property evaluated on a concrete registry. -/
theorem C10_failure_update_frame_witness :
    getTask
        (catchUpdate (postTask [] "w10" 3 (some "work")).1 "w10" "boom" none 9)
        "w10"
      = some (failUpdate
          { status := Status.running, prompt := "work", started := 3,
            logFile := WORK_DIR ++ "/" ++ "w10" ++ "/output.log" }
          "boom" none 9) ∧
    (failUpdate
        { status := Status.running, prompt := "work", started := 3,
          logFile := WORK_DIR ++ "/" ++ "w10" ++ "/output.log" }
        "boom" none 9).prompt = "work" ∧
    (failUpdate
        { status := Status.running, prompt := "work", started := 3,
          logFile := WORK_DIR ++ "/" ++ "w10" ++ "/output.log" }
        "boom" none 9).started = 3 ∧
    (failUpdate
        { status := Status.running, prompt := "work", started := 3,
          logFile := WORK_DIR ++ "/" ++ "w10" ++ "/output.log" }
        "boom" none 9).logFile = WORK_DIR ++ "/" ++ "w10" ++ "/output.log" ∧
    (failUpdate
        { status := Status.running, prompt := "work", started := 3,
          logFile := WORK_DIR ++ "/" ++ "w10" ++ "/output.log" }
        "boom" none 9).pr_url = none ∧
    (failUpdate
        { status := Status.running, prompt := "work", started := 3,
          logFile := WORK_DIR ++ "/" ++ "w10" ++ "/output.log" }
        "boom" none 9).status = Status.failed ∧
    (failUpdate
        { status := Status.running, prompt := "work", started := 3,
          logFile := WORK_DIR ++ "/" ++ "w10" ++ "/output.log" }
        "boom" none 9).error = some "boom" ∧
    (failUpdate
        { status := Status.running, prompt := "work", started := 3,
          logFile := WORK_DIR ++ "/" ++ "w10" ++ "/output.log" }
        "boom" none 9).errorType = some (Option.getD none "unknown") ∧
    (failUpdate
        { status := Status.running, prompt := "work", started := 3,
          logFile := WORK_DIR ++ "/" ++ "w10" ++ "/output.log" }
        "boom" none 9).finished = some 9 ∧
    (∀ id', id' ≠ "w10" →
      getTask (catchUpdate (postTask [] "w10" 3 (some "work")).1 "w10" "boom"
          none 9) id'
        = getTask (postTask [] "w10" 3 (some "work")).1 id') :=
  C10_failure_update_frame (postTask [] "w10" 3 (some "work")).1 "w10" "boom"
    none 9
    { status := Status.running, prompt := "work", started := 3,
      logFile := WORK_DIR ++ "/" ++ "w10" ++ "/output.log" }
    (by decide)

/-! ## Claim C9 -/

/-- C9: once the admin account is set up, an unauthenticated request to a
path starting with `/task` or `/api/` (other than `/api/setup` and
`/api/login`) is answered `401` with an error body and the route handler
never runs (the registry is untouched); an authenticated session passes
through to the handler. -/
theorem C9_auth_gate (path : String) (reg : Registry)
    (route : Registry → Registry × Response)
    (h1 : pathStartsWith path "/task" ∨ pathStartsWith path "/api/")
    (h2 : path ≠ "/api/login") (h3 : path ≠ "/api/setup") :
    handleWithAuth true false path reg route
      = (reg, Response.json 401 [("error", JVal.jstr "Unauthorized")]) ∧
    handleWithAuth true true path reg route = route reg := by
  have hlogin : ¬ (path = "/login" ∨ path = "/api/login") := by
    rintro (h | h)
    · subst h
      rcases h1 with h1 | h1 <;> exact absurd h1 (by decide)
    · exact h2 h
  have hcond : pathStartsWith path "/api/" = true
      ∨ pathStartsWith path "/task" = true := by
    rcases h1 with h1 | h1
    · exact Or.inr h1
    · exact Or.inl h1
  constructor
  · simp only [handleWithAuth, requireAuth]
    rw [if_neg (by simp), if_neg hlogin, if_neg (by simp), if_pos hcond]
  · simp only [handleWithAuth, requireAuth]
    rw [if_neg (by simp), if_neg hlogin, if_pos (by simp)]

/-- C9 witness: the gate evaluated at the concrete path `/task` and a
concrete route handler. -/
theorem C9_auth_gate_witness :
    handleWithAuth true false "/task" []
        (fun reg => (reg, Response.json 200 []))
      = ([], Response.json 401 [("error", JVal.jstr "Unauthorized")]) ∧
    handleWithAuth true true "/task" []
        (fun reg => (reg, Response.json 200 []))
      = (fun (reg : Registry) => (reg, Response.json 200 [])) [] :=
  C9_auth_gate "/task" [] (fun reg => (reg, Response.json 200 []))
    (Or.inl (by decide)) (by decide) (by decide)

/-! ## Claim C7 -/

/-- C7 counterexample: the health body has field names `ok`, `tasks`,
`running` — not `ok`, `totalTasks`, `runningCount` as the claim states. -/
theorem C7_counterexample :
    List.map Prod.fst (healthJson []) = ["ok", "tasks", "running"] ∧
    List.map Prod.fst (healthJson []) ≠ ["ok", "totalTasks", "runningCount"] := by
  decide

/-- C7 amended: `GET /health` always returns a JSON object with exactly
the fields `ok`, `tasks` and `running`, where `tasks` is the number of
tasks in the registry and `running` the number of tasks whose status is
`running`. -/
theorem C7_amended_health_fields (reg : Registry) :
    List.map Prod.fst (healthJson reg) = ["ok", "tasks", "running"] ∧
    List.lookup "ok" (healthJson reg) = some (JVal.jbool true) ∧
    List.lookup "tasks" (healthJson reg)
      = some (JVal.jnum (registrySize reg)) ∧
    List.lookup "running" (healthJson reg)
      = some (JVal.jnum (countRunning reg)) := by
  refine ⟨rfl, rfl, rfl, rfl⟩

/-! ## Claim C8 -/

/-- C8 counterexample: creation performs no uniqueness check on the
generated 8-character id; a second creation drawing the same id silently
overwrites the first entry (the registry keeps one record, the first
prompt is gone). -/
theorem C8_counterexample :
    (getTask (postTask [] "aaaaaaaa" 0 (some "first task")).1
        "aaaaaaaa").map TaskRecord.prompt = some "first task" ∧
    registrySize ((postTask ((postTask [] "aaaaaaaa" 0 (some "first task")).1)
        "aaaaaaaa" 1 (some "second task")).1) = 1 ∧
    (getTask ((postTask ((postTask [] "aaaaaaaa" 0 (some "first task")).1)
        "aaaaaaaa" 1 (some "second task")).1) "aaaaaaaa").map TaskRecord.prompt
      = some "second task" := by
  decide

/-- C8 amended: ids are random and unchecked; only when the drawn id is
not already present does creation add one entry, leave every other entry
unchanged, and preserve pairwise-distinct registry keys.  A colliding id
overwrites the existing entry (see the counterexample). -/
theorem C8_amended_fresh_id (reg : Registry) (freshId p : String)
    (now : Nat) (hp : p ≠ "") (h : getTask reg freshId = none) :
    registrySize (postTask reg freshId now (some p)).1
      = registrySize reg + 1 ∧
    (∀ id', id' ≠ freshId →
      getTask (postTask reg freshId now (some p)).1 id' = getTask reg id') ∧
    ((List.map Prod.fst reg).Nodup →
      (List.map Prod.fst (postTask reg freshId now (some p)).1).Nodup) := by
  have hkey : freshId ∉ List.map Prod.fst reg := by
    intro hmem
    rcases List.mem_map.mp hmem with ⟨q, hq, hq1⟩
    have hf : List.find? (fun p => p.1 = freshId) reg = none := by
      cases hfind : List.find? (fun p => p.1 = freshId) reg with
      | none => rfl
      | some v => rw [getTask, hfind] at h; simp at h
    have := List.find?_eq_none.mp hf q hq
    simp [hq1] at this
  have hset : (postTask reg freshId now (some p)).1
      = (freshId,
          { status := Status.running, prompt := p, started := now,
            logFile := WORK_DIR ++ "/" ++ freshId ++ "/output.log" }) :: reg := by
    simp only [postTask]
    rw [if_neg hp]
    simp only [setTask]
    rw [filter_ne_of_absent reg freshId h]
  refine ⟨?_, ?_, ?_⟩
  · rw [hset]; rfl
  · intro id' hne
    simp only [postTask]
    rw [if_neg hp]
    exact getTask_setTask_ne reg freshId id' _ hne
  · intro hnd
    rw [hset]
    simp only [List.map_cons, List.nodup_cons]
    exact ⟨hkey, hnd⟩

/-- C8 witness: the fresh-id guarantees evaluated on a concrete registry
holding one other task. -/
theorem C8_amended_fresh_id_witness :
    registrySize
        (postTask (postTask [] "bbbbbbbb" 0 (some "other")).1 "aaaaaaaa" 1
          (some "new")).1
      = registrySize (postTask [] "bbbbbbbb" 0 (some "other")).1 + 1 ∧
    (∀ id', id' ≠ "aaaaaaaa" →
      getTask
          (postTask (postTask [] "bbbbbbbb" 0 (some "other")).1 "aaaaaaaa" 1
            (some "new")).1 id'
        = getTask (postTask [] "bbbbbbbb" 0 (some "other")).1 id') ∧
    ((List.map Prod.fst (postTask [] "bbbbbbbb" 0 (some "other")).1).Nodup →
      (List.map Prod.fst
        (postTask (postTask [] "bbbbbbbb" 0 (some "other")).1 "aaaaaaaa" 1
          (some "new")).1).Nodup) :=
  C8_amended_fresh_id (postTask [] "bbbbbbbb" 0 (some "other")).1 "aaaaaaaa"
    "new" 1 (by decide) (by decide)

/-! ## Claim C3 -/

/-- C3 counterexample: the record stored at creation has status `running`,
not `queued`; a caller polling `GET /task/:id` between creation and phase
launch observes `running`, even though the creation response says
`queued`. -/
theorem C3_counterexample :
    (postTask [] "abc12345" 7 (some "do it")).2
      = Response.json 200
          [("id", JVal.jstr "abc12345"), ("status", JVal.jstr "queued")] ∧
    getTaskRoute (postTask [] "abc12345" 7 (some "do it")).1 "abc12345"
      = TaskGetResult.found "abc12345"
          { status := Status.running, prompt := "do it", started := 7,
            logFile := "/tmp/work/abc12345/output.log" } ∧
    Status.running ≠ Status.queued := by
  decide

/-- C3 amended: on creation the task is recorded synchronously — with
status `running`, not `queued` — before any process starts, and that
record is what a poller observes; the `POST /task` response is
`id` with status string `queued`, and a missing prompt is answered `400`
leaving the registry unchanged. -/
theorem C3_amended_creation (reg : Registry) (freshId p : String) (now : Nat)
    (hp : p ≠ "") :
    (postTask reg freshId now (some p)).2
      = Response.json 200
          [("id", JVal.jstr freshId), ("status", JVal.jstr "queued")] ∧
    getTaskRoute (postTask reg freshId now (some p)).1 freshId
      = TaskGetResult.found freshId
          { status := Status.running, prompt := p, started := now,
            logFile := WORK_DIR ++ "/" ++ freshId ++ "/output.log" } ∧
    postTask reg freshId now none
      = (reg, Response.json 400 [("error", JVal.jstr "prompt required")]) := by
  refine ⟨?_, ?_, rfl⟩
  · simp only [postTask]
    rw [if_neg hp]
  · simp only [postTask, getTaskRoute]
    rw [if_neg hp]
    rw [getTask_setTask_same]

/-- C3 witness: the creation contract evaluated at a concrete prompt. -/
theorem C3_amended_creation_witness :
    ((postTask [] "w3" 5 (some "hello")).2
      = Response.json 200
          [("id", JVal.jstr "w3"), ("status", JVal.jstr "queued")] ∧
    getTaskRoute (postTask [] "w3" 5 (some "hello")).1 "w3"
      = TaskGetResult.found "w3"
          { status := Status.running, prompt := "hello", started := 5,
            logFile := WORK_DIR ++ "/" ++ "w3" ++ "/output.log" } ∧
    postTask [] "w3" 5 none
      = ([], Response.json 400 [("error", JVal.jstr "prompt required")])) :=
  C3_amended_creation [] "w3" "hello" 5 (by decide)

/-! ## Registry-update helper lemmas -/

theorem getTask_workerFinishReg (reg : Registry) (id out : String)
    (code : Int) (now : Nat) :
    ∃ r0, getTask (workerFinishReg reg id out code now) id
      = some (workerFinish r0 out code now) := by
  unfold workerFinishReg
  cases getTask reg id with
  | none => exact ⟨_, getTask_setTask_same reg id _⟩
  | some r => exact ⟨r, getTask_setTask_same reg id _⟩

theorem getTask_catchUpdate (reg : Registry) (id msg : String)
    (etype : Option String) (now : Nat) :
    ∃ r0, getTask (catchUpdate reg id msg etype now) id
      = some (failUpdate r0 msg etype now) := by
  unfold catchUpdate
  cases getTask reg id with
  | none => exact ⟨_, getTask_setTask_same reg id _⟩
  | some r => exact ⟨r, getTask_setTask_same reg id _⟩

/-! ## Claim C1 -/

/-- C1 counterexample: the worker output carries the capacity-throttling
token `rate limit`, the process exits 0, and the task still ends
`completed` with no error kind at all — the source has no output
classifier and no `capacity_reached` value. -/
theorem C1_counterexample :
    hasCapacitySignature "Error: rate limit exceeded, please retry later"
      = true ∧
    (getTask (runTaskModel (postTask [] "c1" 0 (some "fix bug")).1 "c1"
        "fix bug" 0 50 (OrchEvent.exit ["setup ok"] 0)
        (WorkEvent.exit ["Error: rate limit exceeded, please retry later"]
          0)).reg "c1").map TaskRecord.status = some Status.completed ∧
    (getTask (runTaskModel (postTask [] "c1" 0 (some "fix bug")).1 "c1"
        "fix bug" 0 50 (OrchEvent.exit ["setup ok"] 0)
        (WorkEvent.exit ["Error: rate limit exceeded, please retry later"]
          0)).reg "c1").map TaskRecord.errorType = some none := by
  decide

/-- C1 amended: the terminal classification of the worker phase depends on
the exit code alone; output text is never classified, so a run whose
output carries a capacity-throttling signature but whose process exits 0
ends `completed` with `errorType` null. -/
theorem C1_amended_exit_code_decides (reg : Registry) (id prompt : String)
    (started finish : Nat) (oc wc : List String)
    (_h : hasCapacitySignature (String.join wc) = true) :
    (getTask (runTaskModel reg id prompt started finish (OrchEvent.exit oc 0)
        (WorkEvent.exit wc 0)).reg id).map TaskRecord.status
      = some Status.completed ∧
    (∀ r, getTask (runTaskModel reg id prompt started finish
          (OrchEvent.exit oc 0) (WorkEvent.exit wc 0)).reg id = some r →
      r.errorType = none) := by
  have hreg : (runTaskModel reg id prompt started finish (OrchEvent.exit oc 0)
      (WorkEvent.exit wc 0)).reg
      = workerFinishReg reg id (String.join wc) 0 finish := rfl
  obtain ⟨r0, hr0⟩ := getTask_workerFinishReg reg id (String.join wc) 0 finish
  constructor
  · rw [hreg, hr0]; rfl
  · intro r hr
    rw [hreg, hr0] at hr
    have := Option.some.inj hr
    rw [← this]; rfl

/-- C1 amended witness: the exit-code rule evaluated on output that does
carry a capacity signature. -/
theorem C1_amended_exit_code_decides_witness :
    (getTask (runTaskModel [] "w1" "p1" 0 0 (OrchEvent.exit [] 0)
        (WorkEvent.exit ["rate limit hit"] 0)).reg "w1").map
        TaskRecord.status = some Status.completed ∧
    (∀ r, getTask (runTaskModel [] "w1" "p1" 0 0 (OrchEvent.exit [] 0)
          (WorkEvent.exit ["rate limit hit"] 0)).reg "w1" = some r →
      r.errorType = none) :=
  C1_amended_exit_code_decides [] "w1" "p1" 0 0 [] ["rate limit hit"]
    (by decide)

/-! ## Claim C2 -/

/-- C2 counterexample: a worker exiting non-zero still gets `pr_url` set
from its output — the extracted reference is not reserved to successful
terminal states as the claim asserts. -/
theorem C2_counterexample :
    (getTask (runTaskModel (postTask [] "c2" 0 (some "task")).1 "c2" "task"
        0 60 (OrchEvent.exit [] 0)
        (WorkEvent.exit
          ["opened https://github.com/acme/x/pull/42 then failed"] 3)).reg
      "c2").map TaskRecord.status = some Status.failed ∧
    (getTask (runTaskModel (postTask [] "c2" 0 (some "task")).1 "c2" "task"
        0 60 (OrchEvent.exit [] 0)
        (WorkEvent.exit
          ["opened https://github.com/acme/x/pull/42 then failed"] 3)).reg
      "c2").map TaskRecord.pr_url
      = some (some "https://github.com/acme/x/pull/42") := by
  decide

/-- C2 amended: whenever the worker process exits on its own, `pr_url` is
set to the first match of the source regex (which recognizes only
`github.com` URLs) over the accumulated output — null when there is no
match — for failed (non-zero exit) terminal records just as for completed
ones, while the status is decided by the exit code. -/
theorem C2_amended_pr_url (reg : Registry) (id prompt : String)
    (started finish : Nat) (oc wc : List String) (code : Int) :
    (getTask (runTaskModel reg id prompt started finish (OrchEvent.exit oc 0)
        (WorkEvent.exit wc code)).reg id).map TaskRecord.pr_url
      = some (matchPRUrl (String.join wc)) ∧
    (getTask (runTaskModel reg id prompt started finish (OrchEvent.exit oc 0)
        (WorkEvent.exit wc code)).reg id).map TaskRecord.status
      = some (if code = 0 then Status.completed else Status.failed) := by
  by_cases hc : code = 0
  · subst hc
    have hreg : (runTaskModel reg id prompt started finish
        (OrchEvent.exit oc 0) (WorkEvent.exit wc 0)).reg
        = workerFinishReg reg id (String.join wc) 0 finish := rfl
    obtain ⟨r0, hr0⟩ :=
      getTask_workerFinishReg reg id (String.join wc) 0 finish
    rw [hreg, hr0]
    exact ⟨rfl, rfl⟩
  · have hreg : (runTaskModel reg id prompt started finish
        (OrchEvent.exit oc 0) (WorkEvent.exit wc code)).reg
        = catchUpdate (workerFinishReg reg id (String.join wc) code finish)
            id ("Worker exited with code " ++ toString code) none finish := by
      simp only [runTaskModel]
      rw [if_pos trivial, if_neg hc]
    obtain ⟨r1, hr1⟩ :=
      getTask_workerFinishReg reg id (String.join wc) code finish
    have hcu : catchUpdate (workerFinishReg reg id (String.join wc) code
          finish) id ("Worker exited with code " ++ toString code) none finish
        = setTask (workerFinishReg reg id (String.join wc) code finish) id
            (failUpdate (workerFinish r1 (String.join wc) code finish)
              ("Worker exited with code " ++ toString code) none finish) := by
      unfold catchUpdate
      rw [hr1]
    rw [hreg, hcu, getTask_setTask_same]
    refine ⟨rfl, ?_⟩
    rw [if_neg hc]
    rfl

/-! ## Claim C4 -/

/-- C4: when the orchestrator (setup) phase exits non-zero, the worker
phase is never launched, the worker-phase banner is never appended to the
log (given the orchestrator output itself does not contain that exact
banner chunk), and the task ends `failed` with the setup failure recorded:
the `error` field carries the orchestrator exit code message and
`errorType` the catch-all `unknown` (the rejected error has no
`errorType` property). -/
theorem C4_setup_failure_blocks_worker (reg : Registry) (id prompt : String)
    (started finish : Nat) (chunks : List String) (code : Int)
    (we : WorkEvent) (hc : code ≠ 0) (hb : workerBanner ∉ chunks) :
    (runTaskModel reg id prompt started finish (OrchEvent.exit chunks code)
        we).workerLaunched = false ∧
    workerBanner ∉ (runTaskModel reg id prompt started finish
        (OrchEvent.exit chunks code) we).log ∧
    (getTask (runTaskModel reg id prompt started finish
        (OrchEvent.exit chunks code) we).reg id).map TaskRecord.status
      = some Status.failed ∧
    (getTask (runTaskModel reg id prompt started finish
        (OrchEvent.exit chunks code) we).reg id).map TaskRecord.error
      = some (some ("Orchestrator exited with code " ++ toString code)) ∧
    (getTask (runTaskModel reg id prompt started finish
        (OrchEvent.exit chunks code) we).reg id).map TaskRecord.errorType
      = some (some "unknown") := by
  have hrun : runTaskModel reg id prompt started finish
      (OrchEvent.exit chunks code) we
      = { reg := catchUpdate reg id
            ("Orchestrator exited with code " ++ toString code) none finish
          log := (taskStartBanners id prompt started ++ [orchBanner]) ++ chunks
          workerLaunched := false
          orchTimerStarted := true
          workerTimerStarted := false } := by
    simp only [runTaskModel]
    rw [if_neg hc]
  rw [hrun]
  obtain ⟨r0, hr0⟩ := getTask_catchUpdate reg id
    ("Orchestrator exited with code " ++ toString code) none finish
  refine ⟨rfl, ?_, ?_, ?_, ?_⟩
  · intro hmem
    rcases List.mem_append.mp hmem with hmem | hmem
    · exact workerBanner_not_mem_start id prompt started hmem
    · exact hb hmem
  · rw [hr0]; rfl
  · rw [hr0]; rfl
  · rw [hr0]; rfl

/-- C4 witness: the blocked worker phase evaluated on a concrete setup
failure (exit code 2). -/
theorem C4_setup_failure_blocks_worker_witness :
    (runTaskModel (postTask [] "w4" 0 (some "p4")).1 "w4" "p4" 0 8
        (OrchEvent.exit ["some setup output"] 2)
        (WorkEvent.exit [] 0)).workerLaunched = false ∧
    workerBanner ∉ (runTaskModel (postTask [] "w4" 0 (some "p4")).1 "w4" "p4"
        0 8 (OrchEvent.exit ["some setup output"] 2)
        (WorkEvent.exit [] 0)).log ∧
    (getTask (runTaskModel (postTask [] "w4" 0 (some "p4")).1 "w4" "p4" 0 8
        (OrchEvent.exit ["some setup output"] 2)
        (WorkEvent.exit [] 0)).reg "w4").map TaskRecord.status
      = some Status.failed ∧
    (getTask (runTaskModel (postTask [] "w4" 0 (some "p4")).1 "w4" "p4" 0 8
        (OrchEvent.exit ["some setup output"] 2)
        (WorkEvent.exit [] 0)).reg "w4").map TaskRecord.error
      = some (some ("Orchestrator exited with code " ++ toString (2 : Int))) ∧
    (getTask (runTaskModel (postTask [] "w4" 0 (some "p4")).1 "w4" "p4" 0 8
        (OrchEvent.exit ["some setup output"] 2)
        (WorkEvent.exit [] 0)).reg "w4").map TaskRecord.errorType
      = some (some "unknown") :=
  C4_setup_failure_blocks_worker (postTask [] "w4" 0 (some "p4")).1 "w4" "p4"
    0 8 ["some setup output"] 2 (WorkEvent.exit [] 0) (by decide) (by decide)

/-! ## Claim C5 -/

/-- C5: evaluation at the failing input.  When the worker timer fires and
the killed process then reports exit code 1, the record transiently set by
the timeout path (`errorType` timeout) is overwritten by the `onExit`
handler: the terminal record carries `errorType` exit_code while its
`error` message still reads `Worker timed out after 1 hour`. -/
theorem C5_timeout_classification_overwritten :
    (getTask (catchUpdate (postTask [] "c5" 0 (some "long task")).1 "c5"
        "Worker timed out after 1 hour" (some "timeout") 99) "c5").map
        TaskRecord.errorType = some (some "timeout") ∧
    (getTask (runTaskModel (postTask [] "c5" 0 (some "long task")).1 "c5"
        "long task" 0 99 (OrchEvent.exit ["setup ok"] 0)
        (WorkEvent.timeoutThenExit ["half done"] 1)).reg "c5").map
        TaskRecord.errorType = some (some "exit_code") ∧
    (getTask (runTaskModel (postTask [] "c5" 0 (some "long task")).1 "c5"
        "long task" 0 99 (OrchEvent.exit ["setup ok"] 0)
        (WorkEvent.timeoutThenExit ["half done"] 1)).reg "c5").map
        TaskRecord.status = some Status.failed ∧
    (getTask (runTaskModel (postTask [] "c5" 0 (some "long task")).1 "c5"
        "long task" 0 99 (OrchEvent.exit ["setup ok"] 0)
        (WorkEvent.timeoutThenExit ["half done"] 1)).reg "c5").map
        TaskRecord.error = some (some "Worker timed out after 1 hour") := by
  decide

/-! ## Claim C6 -/

end ClaudeRunner
